import Mathlib

/-!
Verification of the `alert-watcher` detection engine
(`src/alert-watcher/app.py`).

The Python source is embedded shallowly:

* decoded JSON values become the inductive type `AW.Json` (JSON numbers in
  the fields this program consumes are integral, so numbers are modelled
  as `Int`; Python `None` and JSON `null` coincide in `Json.null`);
* the mutable `AlertWatcher` object becomes the record `AW.State`, and each
  method becomes a function `Config → State → Env → ... → Except Fault (State × List Output)`
  where `Env` carries the per-call external world (the clock, the
  maintenance-flag file's existence, the webhook transport outcome) and
  `Output` records the externally visible actions (dispatch attempts,
  outbound webhook POSTs, diagnostic log lines);
* Python exceptions escaping the pipeline become `Except.error` values of
  type `AW.Fault`;
* Python float arithmetic (the error rate, the threshold, timestamps) is
  idealised as exact rational arithmetic over `ℚ`: the temporal claims
  quantify over the outcome of the rate/threshold comparison, not over
  binary-float rounding.
-/

namespace AW

/-- A JSON value as decoded by Python `json.loads`: `null` maps to Python
`None`; numbers are modelled as integers (the log fields consumed by the
watcher are integral status codes; floats are not modelled). -/
inductive Json where
  | null
  | bool (b : Bool)
  | num (n : Int)
  | str (s : String)
  | arr (elems : List Json)
  | obj (fields : List (String × Json))

/-- A Python exception escaping the detection pipeline. -/
inductive Fault where
  | attributeError
  | zeroDivisionError
deriving DecidableEq

/-- Python truthiness of a decoded JSON value (`if not entry`, `x or y`). -/
def pyTruthy : Json → Bool
  | .null => false
  | .bool b => b
  | .num n => n != 0
  | .str s => s != ""
  | .arr elems => !elems.isEmpty
  | .obj fields => !fields.isEmpty

/-- Whether the value is a JSON object (a Python dict). -/
def Json.isObj : Json → Bool
  | .obj _ => true
  | _ => false

/-- Whether the value is Python `None`. -/
def Json.isNull : Json → Bool
  | .null => true
  | _ => false

/-- Lookup in a decoded JSON object; `json.loads` keeps the last binding of
a duplicated key, hence the reversed search.  An absent key yields `null`
(Python `dict.get` returns `None`). -/
def dictGet (fields : List (String × Json)) (key : String) : Json :=
  match fields.reverse.find? (fun kv => kv.1 == key) with
  | some kv => kv.2
  | none => .null

/-- `entry.get(key)`: `AttributeError` unless the receiver is a dict. -/
def Json.get : Json → String → Except Fault Json
  | .obj fields, key => .ok (dictGet fields key)
  | _, _ => .error .attributeError

mutual

/-- Python `repr` of a decoded JSON value (`str` falls back to this for
values nested in containers).  String escaping inside the quotes is not
modelled; the surrounding quotes alone already make the result
non-integer-parsable, which is all the watcher observes. -/
def pyRepr : Json → String
  | .null => "None"
  | .bool true => "True"
  | .bool false => "False"
  | .num n => toString n
  | .str s => "\x27" ++ s ++ "\x27"
  | .arr elems => "[" ++ pyReprItems elems ++ "]"
  | .obj fields => "\x7b" ++ pyReprFields fields ++ "\x7d"

/-- Comma-joined `repr`s of list items. -/
def pyReprItems : List Json → String
  | [] => ""
  | [x] => pyRepr x
  | x :: y :: rest => pyRepr x ++ ", " ++ pyReprItems (y :: rest)

/-- Comma-joined `repr`s of dict items. -/
def pyReprFields : List (String × Json) → String
  | [] => ""
  | [(k, v)] => "\x27" ++ k ++ "\x27: " ++ pyRepr v
  | (k, v) :: kv :: rest =>
      "\x27" ++ k ++ "\x27: " ++ pyRepr v ++ ", " ++ pyReprFields (kv :: rest)

end

/-- Python `str()` of a decoded JSON value. -/
def pyStr : Json → String
  | .str s => s
  | v => pyRepr v

/-- Whitespace as stripped by Python `str.strip()` (restricted to the
ASCII range; the log lines in question are ASCII). -/
def pyIsSpace (c : Char) : Bool :=
  c = ' ' || c = '\t' || c = '\n' || c = '\r' || c = '\x0b' || c = '\x0c'

/-- `str.strip()` on a character list. -/
def pyStripList (l : List Char) : List Char :=
  ((l.dropWhile pyIsSpace).reverse.dropWhile pyIsSpace).reverse

/-- Python `str.strip()` with no argument. -/
def pyStrip (s : String) : String := ⟨pyStripList s.data⟩

/-- `str.split(",")` on a character list; splits at every comma, so the
result is one (possibly empty) chunk more than the number of commas. -/
def splitCommaList : List Char → List (List Char)
  | [] => [[]]
  | c :: rest =>
      let r := splitCommaList rest
      if c = ',' then [] :: r
      else
        match r with
        | [] => [[c]]
        | t :: ts => (c :: t) :: ts

/-- Python `str.split(",")`. -/
def pySplitComma (s : String) : List String :=
  (splitCommaList s.data).map (fun l => ⟨l⟩)

/-- Python `str.lower()` (ASCII range). -/
def pyLower (s : String) : String := ⟨s.data.map Char.toLower⟩

/-- Digit run of a Python integer literal: decimal digits optionally
separated by single underscores (no leading, trailing, or doubled
underscore). -/
def pyDigits (acc : Nat) : List Char → Option Nat
  | [] => some acc
  | '_' :: c :: rest =>
      if c.isDigit then pyDigits (acc * 10 + (c.toNat - 48)) rest else none
  | ['_'] => none
  | c :: rest =>
      if c.isDigit then pyDigits (acc * 10 + (c.toNat - 48)) rest else none

/-- Python `int()` applied to a string: strip whitespace, optional sign,
then an integer literal; `none` models `ValueError`. -/
def pyParseInt (s : String) : Option Int :=
  match (pyStrip s).data with
  | [] => none
  | '+' :: c :: rest =>
      if c.isDigit then (pyDigits (c.toNat - 48) rest).map Int.ofNat else none
  | '-' :: c :: rest =>
      if c.isDigit then (pyDigits (c.toNat - 48) rest).map (fun n => -(n : Int)) else none
  | c :: rest =>
      if c.isDigit then (pyDigits (c.toNat - 48) rest).map Int.ofNat else none

/-- Python `int()` applied to a decoded JSON value; `none` models
`TypeError`/`ValueError` (both caught by `_is_error`). -/
def pyToInt : Json → Option Int
  | .num n => some n
  | .bool b => some (if b then 1 else 0)
  | .str s => pyParseInt s
  | _ => none

/-- Python `==` between a decoded JSON value and an integer literal
(booleans compare as 0/1; other decoded types never equal an int). -/
def pyEqInt (v : Json) (n : Int) : Bool :=
  match v with
  | .num m => m == n
  | .bool b => (if b then (1 : Int) else 0) == n
  | _ => false

/-- The token loop of `AlertWatcher._first_status` (app.py:135-143): trim
each candidate, skip blanks, return the first token `int()` accepts. -/
def firstParsedTok : List String → Option Int
  | [] => none
  | p :: rest =>
      let t := pyStrip p
      if t = "" then firstParsedTok rest
      else
        match pyParseInt t with
        | some n => some n
        | none => firstParsedTok rest

/-- `AlertWatcher._first_status` (app.py:124-143). -/
def first_status (value : Json) : Option Int :=
  if value.isNull then none
  else
    match value with
    | .arr items => firstParsedTok (items.map pyStr)
    | v => firstParsedTok (pySplitComma (pyStr v))

/-- `AlertWatcher._is_error` (app.py:112-122).  Faults on `entry.get`
when `entry` is not a dict. -/
def is_error (entry : Json) : Except Fault Bool :=
  match entry.get "upstream_status" with
  | .error e => .error e
  | .ok upstream =>
    match first_status upstream with
    | some code => .ok (decide (500 ≤ code))
    | none =>
      match entry.get "status" with
      | .error e => .error e
      | .ok sc =>
        if sc.isNull then .ok false
        else
          match pyToInt sc with
          | some n => .ok (decide (500 ≤ n))
          | none => .ok false

/-- The status-classification of a dict entry, as a pure function: first
parsable `upstream_status` token, else the `status` field, else non-error;
error iff the resolved code is at least 500. -/
def classifyStatus (fields : List (String × Json)) : Bool :=
  match first_status (dictGet fields "upstream_status") with
  | some code => decide (500 ≤ code)
  | none =>
    match pyToInt (dictGet fields "status") with
    | some n => decide (500 ≤ n)
    | none => false

/-- On a dict entry `_is_error` never faults and computes `classifyStatus`. -/
theorem is_error_obj (fields : List (String × Json)) :
    is_error (.obj fields) = .ok (classifyStatus fields) := by
  unfold is_error classifyStatus Json.get
  cases h : first_status (dictGet fields "upstream_status") with
  | some code => simp [h]
  | none =>
    simp only [h]
    cases hv : dictGet fields "status" with
    | str s => cases hp : pyParseInt s <;> simp [Json.isNull, pyToInt, hp]
    | _ => simp [Json.isNull, pyToInt]

/-- On a non-dict entry `_is_error` raises `AttributeError`. -/
theorem is_error_nonobj (v : Json) (h : v.isObj = false) :
    is_error v = .error .attributeError := by
  cases v
  case obj fields => simp [Json.isObj] at h
  all_goals rfl

example : first_status (.str "502, 200") = some 502 := by decide
example : first_status (.str "") = none := by decide
example : first_status (.arr [.str "abc", .num 503]) = some 503 := by decide
example : classifyStatus [("status", .str "200")] = false := by decide
example : classifyStatus [] = false := by decide
example : classifyStatus [("upstream_status", .str "502, 200")] = true := by decide

/-- The constructor arguments of `AlertWatcher.__init__` (app.py:17-36)
that the detection engine reads; `primary_pool` and `maintenance_flag` are
stored already normalised, exactly as `__init__` does
(`(primary_pool or "").strip().lower()` and `(maintenance_flag or "").strip()`),
so an unconfigured option is the empty string. -/
structure Config where
  webhook_url : String
  window_size : Nat
  error_threshold : ℚ
  cooldown_seconds : ℚ
  primary_pool : String
  maintenance_flag : String

/-- The mutable fields of an `AlertWatcher` instance.  `window` holds the
deque contents oldest-first; `cooldowns` is the dict of per-alert-type
last-successful-dispatch timestamps, most recent binding first. -/
structure State where
  window : List Int
  error_alert_active : Bool
  current_pool : Option String
  cooldowns : List (String × ℚ)
deriving DecidableEq

/-- Outcome of the `requests.post` call as observed by `_notify`:
an HTTP response with its status code and body text, or a
`requests.RequestException` (connection error, timeout). -/
inductive SendResult where
  | http (status_code : Int) (body : String)
  | transportError (msg : String)
deriving DecidableEq

/-- The external world as sampled during one dispatch attempt: the clock
(`time.time()`), whether the maintenance-flag path currently exists on the
filesystem (`os.path.exists`, checked fresh at each attempt), and how the
webhook transport would respond. -/
structure Env where
  now : ℚ
  maintenanceExists : Bool
  sendResult : SendResult

/-- Externally visible actions of the engine, in order.  `notifyAttempt`
marks an invocation of `_notify` (a dispatch attempt of an alert event);
`webhookCall` an outbound `requests.post`; `diag` an operator-facing log
line (the timestamp prefix added by `log` is elided). -/
inductive Output where
  | notifyAttempt (alert_type : String) (message : String)
  | webhookCall (url : String) (text : String)
  | diag (message : String)
deriving DecidableEq

/-- `self.cooldowns.get(alert_type)` (app.py:176). -/
def cdLookup (cds : List (String × ℚ)) (t : String) : Option ℚ :=
  match cds.find? (fun kv => kv.1 == t) with
  | some kv => some kv.2
  | none => none

/-- `AlertWatcher._in_cooldown` (app.py:175-179). -/
def in_cooldown (cfg : Config) (st : State) (env : Env) (alert_type : String) : Bool :=
  match cdLookup st.cooldowns alert_type with
  | none => false
  | some last => decide (env.now - last < cfg.cooldown_seconds)

/-- `AlertWatcher._maintenance_active` (app.py:172-173): the flag path is
configured and currently exists. -/
def maintenance_active (cfg : Config) (env : Env) : Bool :=
  (cfg.maintenance_flag != "") && env.maintenanceExists

/-- `AlertWatcher._notify` (app.py:145-170).  The head `notifyAttempt`
output marks the invocation itself; state changes only on a successful
send (HTTP status below 400), which records `now` as the cooldown
timestamp for this alert type. -/
def notify (cfg : Config) (st : State) (env : Env) (alert_type message : String) :
    State × List Output :=
  if in_cooldown cfg st env alert_type then
    (st, [.notifyAttempt alert_type message])
  else if maintenance_active cfg env then
    (st, [.notifyAttempt alert_type message,
          .diag ("Maintenance mode active; suppressing " ++ alert_type
                  ++ " alert: " ++ message)])
  else if cfg.webhook_url = "" then
    (st, [.notifyAttempt alert_type message,
          .diag ("Cannot send " ++ alert_type
                  ++ " alert (no webhook configured): " ++ message)])
  else
    let text := ":rotating_light: " ++ message
    match env.sendResult with
    | .http code body =>
      if 400 ≤ code then
        (st, [.notifyAttempt alert_type message,
              .webhookCall cfg.webhook_url text,
              .diag ("Slack webhook returned " ++ toString code ++ ": "
                      ++ pyStrip body)])
      else
        ({ st with cooldowns := (alert_type, env.now) :: st.cooldowns },
         [.notifyAttempt alert_type message,
          .webhookCall cfg.webhook_url text,
          .diag ("Sent " ++ alert_type ++ " alert: " ++ message)])
    | .transportError msg =>
      (st, [.notifyAttempt alert_type message,
            .webhookCall cfg.webhook_url text,
            .diag ("Failed to send " ++ alert_type ++ " alert: " ++ msg)])

/-- `collections.deque(maxlen=m).append`: append at the tail, evicting
from the head when over capacity (a `maxlen=0` deque stays empty). -/
def dequeAppend (maxlen : Nat) (w : List Int) (x : Int) : List Int :=
  let w2 := w ++ [x]
  if w2.length ≤ maxlen then w2 else w2.drop (w2.length - maxlen)

/-- Python `/`: `ZeroDivisionError` on a zero denominator. -/
def pyDiv (a b : ℚ) : Except Fault ℚ :=
  if b = 0 then .error .zeroDivisionError else .ok (a / b)

/-- Round-half-even to an integer, as Python float formatting does
(idealised over the exact rational; binary-float representation error is
not modelled, and no claim depends on this string). -/
def roundHalfEven (q : ℚ) : Int :=
  let fl := ⌊q⌋
  if q - fl < 1 / 2 then fl
  else if 1 / 2 < q - fl then fl + 1
  else if fl % 2 = 0 then fl else fl + 1

/-- Two-digit zero padding. -/
def pad2 (n : Int) : String :=
  if n < 10 then "0" ++ toString n else toString n

/-- `f"{rate * 100:.2f}"`: the rate as a percentage with two decimals. -/
def fmtPct (rate : ℚ) : String :=
  let h := roundHalfEven (rate * 10000)
  toString (h / 100) ++ "." ++ pad2 (h % 100)

/-- The `error_rate` alert message (app.py:69-72). -/
def rateMessage (rate : ℚ) (len : Nat) : String :=
  "High upstream error rate detected: " ++ fmtPct rate ++ "% over last "
    ++ toString len ++ " requests."

/-- `AlertWatcher._record_error` (app.py:57-76). -/
def record_error (cfg : Config) (st : State) (env : Env) (entry : Json) :
    Except Fault (State × List Output) :=
  match is_error entry with
  | .error e => .error e
  | .ok b =>
    let w := dequeAppend cfg.window_size st.window (if b then 1 else 0)
    let st1 := { st with window := w }
    if w.length < cfg.window_size then .ok (st1, [])
    else
      match pyDiv (w.sum : ℚ) (w.length : ℚ) with
      | .error e => .error e
      | .ok rate =>
        if cfg.error_threshold ≤ rate then
          if st1.error_alert_active then .ok (st1, [])
          else
            let p := notify cfg st1 env "error_rate" (rateMessage rate w.length)
            .ok ({ p.1 with error_alert_active := true }, p.2)
        else .ok ({ st1 with error_alert_active := false }, [])

/-- `(entry.get("pool") or "").strip().lower()` (app.py:80): the empty
string for a falsy value, `AttributeError` for a truthy non-string. -/
def poolOf (v : Json) : Except Fault String :=
  if pyTruthy v then
    match v with
    | .str s => .ok (pyLower (pyStrip s))
    | _ => .error .attributeError
  else .ok ""

/-- The diagnostic line for the first qualifying pool observation
(app.py:92). -/
def initialMsg (pool release : String) : String :=
  "Initial pool observed: " ++ pool ++ " (release " ++ release ++ ")"

/-- The `recovery` alert message (app.py:98-101). -/
def recoveryMsg (pool prev release : String) : String :=
  "Traffic recovered to primary pool \x27" ++ pool ++ "\x27 (was \x27"
    ++ prev ++ "\x27). Release " ++ release ++ " now serving."

/-- The `failover` alert message (app.py:106-109). -/
def failoverMsg (prev pool release : String) : String :=
  "Failover detected: traffic moved from \x27" ++ prev ++ "\x27 to \x27"
    ++ pool ++ "\x27. Release " ++ release ++ " now serving."

/-- `AlertWatcher._check_failover` (app.py:78-110). -/
def check_failover (cfg : Config) (st : State) (env : Env) (entry : Json) :
    Except Fault (State × List Output) :=
  match entry.get "status" with
  | .error e => .error e
  | .ok status =>
    match entry.get "pool" with
    | .error e => .error e
    | .ok poolv =>
      match poolOf poolv with
      | .error e => .error e
      | .ok pool =>
        match entry.get "release" with
        | .error e => .error e
        | .ok releasev =>
          let release := if pyTruthy releasev then pyStr releasev else "unknown"
          if pool = "" ∨ pyEqInt status 200 = false then .ok (st, [])
          else if st.current_pool = some pool then .ok (st, [])
          else
            let st1 := { st with current_pool := some pool }
            match st.current_pool with
            | none => .ok (st1, [.diag (initialMsg pool release)])
            | some prev =>
              if cfg.primary_pool ≠ "" ∧ pool = cfg.primary_pool then
                .ok (notify cfg st1 env "recovery" (recoveryMsg pool prev release))
              else
                .ok (notify cfg st1 env "failover" (failoverMsg prev pool release))

/-- `AlertWatcher.process_line` (app.py:38-44) after JSON decoding:
`none` models a blank or undecodable line (skipped by `_parse_entry`,
app.py:46-55); a falsy decoded value (`null`, `false`, `0`, `""`, `[]`,
or the empty object) is dropped by the `if not entry` guard (app.py:40). -/
def process_parsed (cfg : Config) (st : State) (env : Env) (parsed : Option Json) :
    Except Fault (State × List Output) :=
  match parsed with
  | none => .ok (st, [])
  | some entry =>
    if pyTruthy entry then
      match record_error cfg st env entry with
      | .error e => .error e
      | .ok (st1, o1) =>
        match check_failover cfg st1 env entry with
        | .error e => .error e
        | .ok (st2, o2) => .ok (st2, o1 ++ o2)
    else .ok (st, [])

/-- Feed a sequence of already-decoded dict entries through
`_record_error` alone (the rolling error-rate detector), pairing each with
the external world at the time it is processed and collecting the outputs. -/
def runErrors (cfg : Config) : State → List (Env × List (String × Json)) →
    Except Fault (State × List Output)
  | st, [] => .ok (st, [])
  | st, (env, fields) :: rest =>
    match record_error cfg st env (.obj fields) with
    | .error e => .error e
    | .ok (st1, o1) =>
      match runErrors cfg st1 rest with
      | .error e => .error e
      | .ok (st2, o2) => .ok (st2, o1 ++ o2)

/-- The error bit `_record_error` appends for a dict entry. -/
def errBit (fields : List (String × Json)) : Int :=
  if classifyStatus fields then 1 else 0

/-- The rate `sum(window) / len(window)` (app.py:64). -/
def rateOf (w : List Int) : ℚ := (w.sum : ℚ) / (w.length : ℚ)

/-- The successive post-append windows produced by a sequence of error
bits. -/
def windowsOf (m : Nat) : List Int → List Int → List (List Int)
  | _, [] => []
  | w, b :: rest =>
    let w2 := dequeAppend m w b
    w2 :: windowsOf m w2 rest

/-- Number of dispatch attempts of the given alert type in a trace. -/
def countType (t : String) (outs : List Output) : Nat :=
  (outs.filter (fun o =>
    match o with
    | .notifyAttempt t2 _ => t2 == t
    | _ => false)).length

/-- Whether an output is an outbound webhook POST. -/
def isCall : Output → Bool
  | .webhookCall _ _ => true
  | _ => false

/-- Whether an output is a diagnostic log line. -/
def isDiag : Output → Bool
  | .diag _ => true
  | _ => false

/-- A sample configuration for concrete evaluations: window of 3, 50%
threshold, 300 s cooldown, primary pool `blue`, no maintenance flag. -/
def cfg0 : Config :=
  { webhook_url := "https://hooks.example/T000/B000"
    window_size := 3
    error_threshold := 1 / 2
    cooldown_seconds := 300
    primary_pool := "blue"
    maintenance_flag := "" }

/-- The freshly constructed watcher state (app.py:29-36). -/
def st0 : State :=
  { window := []
    error_alert_active := false
    current_pool := none
    cooldowns := [] }

/-- A sample environment: a clock reading of 1000, no maintenance file,
webhook answering HTTP 200. -/
def env0 : Env :=
  { now := 1000
    maintenanceExists := false
    sendResult := .http 200 "ok" }

example :
    process_parsed cfg0 st0 env0 (some (.obj [("status", .num 503)]))
      = .ok ({ st0 with window := [1] }, []) := rfl
example :
    process_parsed cfg0 st0 env0 (some (.num 5)) = .error .attributeError := rfl
example :
    process_parsed cfg0
      { st0 with current_pool := some "blue" } env0
      (some (.obj [("status", .num 200), ("pool", .str "green")]))
      = .ok ({ window := [0], error_alert_active := false,
               current_pool := some "green",
               cooldowns := [("failover", 1000)] },
             [.notifyAttempt "failover"
                (failoverMsg "blue" "green" "unknown"),
              .webhookCall cfg0.webhook_url
                (":rotating_light: " ++ failoverMsg "blue" "green" "unknown"),
              .diag ("Sent failover alert: " ++ failoverMsg "blue" "green" "unknown")]) := rfl

theorem length_dequeAppend (m : Nat) (w : List Int) (x : Int) :
    (dequeAppend m w x).length = min (w.length + 1) m := by
  simp only [dequeAppend]
  split
  · simp_all
  · simp_all
    omega

theorem length_dequeAppend_full (m : Nat) (w : List Int) (x : Int)
    (_hm : 1 ≤ m) (hw : w.length = m) : (dequeAppend m w x).length = m := by
  rw [length_dequeAppend]; omega

theorem dequeAppend_of_full (m : Nat) (w : List Int) (x : Int)
    (hm : 1 ≤ m) (hw : w.length = m) :
    dequeAppend m w x = w.drop 1 ++ [x] := by
  unfold dequeAppend
  have hlt : ¬ (w ++ [x]).length ≤ m := by simp [hw]
  simp only [hlt, if_false]
  have : (w ++ [x]).length - m = 1 := by simp [hw]
  rw [this, List.drop_append_of_le_length (by omega)]

/-- Pure description of `_record_error` on a dict entry; proved equal to
`record_error` (for a positive window size) in `record_error_obj_eq`. -/
def recordResult (cfg : Config) (st : State) (env : Env)
    (fields : List (String × Json)) : State × List Output :=
  let w := dequeAppend cfg.window_size st.window (errBit fields)
  let st1 := { st with window := w }
  if w.length < cfg.window_size then (st1, [])
  else if cfg.error_threshold ≤ rateOf w then
    if st.error_alert_active then (st1, [])
    else
      let p := notify cfg st1 env "error_rate" (rateMessage (rateOf w) w.length)
      ({ p.1 with error_alert_active := true }, p.2)
  else ({ st1 with error_alert_active := false }, [])

theorem record_error_obj_eq (cfg : Config) (st : State) (env : Env)
    (fields : List (String × Json)) (hm : 1 ≤ cfg.window_size) :
    record_error cfg st env (.obj fields) = .ok (recordResult cfg st env fields) := by
  unfold record_error recordResult
  rw [is_error_obj]
  dsimp only
  simp only [errBit]
  by_cases hlt :
      (dequeAppend cfg.window_size st.window
        (if classifyStatus fields then 1 else 0)).length < cfg.window_size
  · simp only [if_pos hlt]
  · simp only [if_neg hlt]
    have hne :
        ((dequeAppend cfg.window_size st.window
            (if classifyStatus fields then 1 else 0)).length : ℚ) ≠ 0 :=
      Nat.cast_ne_zero.mpr (by omega)
    have hdiv :
        pyDiv ((dequeAppend cfg.window_size st.window
                  (if classifyStatus fields then 1 else 0)).sum : ℚ)
              ((dequeAppend cfg.window_size st.window
                  (if classifyStatus fields then 1 else 0)).length : ℚ)
          = .ok (rateOf (dequeAppend cfg.window_size st.window
                  (if classifyStatus fields then 1 else 0))) := by
      unfold pyDiv rateOf
      rw [if_neg hne]
    rw [hdiv]
    dsimp only
    by_cases hth :
        cfg.error_threshold ≤ rateOf (dequeAppend cfg.window_size st.window
          (if classifyStatus fields then 1 else 0))
    · simp only [if_pos hth]
      by_cases ha : st.error_alert_active = true
      · simp only [if_pos ha]
      · simp only [if_neg ha]
    · simp only [if_neg hth]

/-- A zero-capacity window makes `_record_error` reach the division with
an empty window: `ZeroDivisionError`. -/
theorem record_error_zero (cfg : Config) (st : State) (env : Env)
    (fields : List (String × Json)) (hm : cfg.window_size = 0) :
    record_error cfg st env (.obj fields) = .error .zeroDivisionError := by
  unfold record_error
  rw [is_error_obj]
  dsimp only
  have hw : dequeAppend cfg.window_size st.window
      (if classifyStatus fields then 1 else 0) = [] := by
    have h := length_dequeAppend cfg.window_size st.window
      (if classifyStatus fields then 1 else 0)
    exact List.length_eq_zero.mp (by omega)
  rw [hw, hm]
  simp [pyDiv]

theorem notify_in_cooldown (cfg : Config) (st : State) (env : Env) (t m : String)
    (h : in_cooldown cfg st env t = true) :
    notify cfg st env t m = (st, [.notifyAttempt t m]) := by
  unfold notify
  rw [if_pos h]

theorem notify_maintenance (cfg : Config) (st : State) (env : Env) (t m : String)
    (h1 : in_cooldown cfg st env t = false) (h2 : maintenance_active cfg env = true) :
    notify cfg st env t m
      = (st, [.notifyAttempt t m,
              .diag ("Maintenance mode active; suppressing " ++ t
                      ++ " alert: " ++ m)]) := by
  unfold notify
  rw [if_neg (by simp [h1]), if_pos h2]

theorem notify_no_url (cfg : Config) (st : State) (env : Env) (t m : String)
    (h1 : in_cooldown cfg st env t = false) (h2 : maintenance_active cfg env = false)
    (h3 : cfg.webhook_url = "") :
    notify cfg st env t m
      = (st, [.notifyAttempt t m,
              .diag ("Cannot send " ++ t
                      ++ " alert (no webhook configured): " ++ m)]) := by
  unfold notify
  rw [if_neg (by simp [h1]), if_neg (by simp [h2]), if_pos h3]

theorem notify_http_fail (cfg : Config) (st : State) (env : Env) (t m : String)
    (code : Int) (body : String)
    (h1 : in_cooldown cfg st env t = false) (h2 : maintenance_active cfg env = false)
    (h3 : cfg.webhook_url ≠ "") (h4 : env.sendResult = .http code body)
    (h5 : 400 ≤ code) :
    notify cfg st env t m
      = (st, [.notifyAttempt t m,
              .webhookCall cfg.webhook_url (":rotating_light: " ++ m),
              .diag ("Slack webhook returned " ++ toString code ++ ": "
                      ++ pyStrip body)]) := by
  unfold notify
  rw [if_neg (by simp [h1]), if_neg (by simp [h2]), if_neg h3, h4]
  dsimp only
  rw [if_pos h5]

theorem notify_success (cfg : Config) (st : State) (env : Env) (t m : String)
    (code : Int) (body : String)
    (h1 : in_cooldown cfg st env t = false) (h2 : maintenance_active cfg env = false)
    (h3 : cfg.webhook_url ≠ "") (h4 : env.sendResult = .http code body)
    (h5 : code < 400) :
    notify cfg st env t m
      = ({ st with cooldowns := (t, env.now) :: st.cooldowns },
         [.notifyAttempt t m,
          .webhookCall cfg.webhook_url (":rotating_light: " ++ m),
          .diag ("Sent " ++ t ++ " alert: " ++ m)]) := by
  unfold notify
  rw [if_neg (by simp [h1]), if_neg (by simp [h2]), if_neg h3, h4]
  dsimp only
  rw [if_neg (by omega)]

theorem notify_transport (cfg : Config) (st : State) (env : Env) (t m : String)
    (msg : String)
    (h1 : in_cooldown cfg st env t = false) (h2 : maintenance_active cfg env = false)
    (h3 : cfg.webhook_url ≠ "") (h4 : env.sendResult = .transportError msg) :
    notify cfg st env t m
      = (st, [.notifyAttempt t m,
              .webhookCall cfg.webhook_url (":rotating_light: " ++ m),
              .diag ("Failed to send " ++ t ++ " alert: " ++ msg)]) := by
  unfold notify
  rw [if_neg (by simp [h1]), if_neg (by simp [h2]), if_neg h3, h4]

/-- `_notify` never changes the window, the error-alert flag, or the
tracked pool; only the cooldown dict can change. -/
theorem notify_fst_fields (cfg : Config) (st : State) (env : Env) (t m : String) :
    (notify cfg st env t m).1.window = st.window
    ∧ (notify cfg st env t m).1.error_alert_active = st.error_alert_active
    ∧ (notify cfg st env t m).1.current_pool = st.current_pool := by
  unfold notify
  repeat' split
  all_goals simp

/-- `_notify` emits exactly one dispatch attempt, of its own alert type,
and none of any other type. -/
theorem notify_countType (cfg : Config) (st : State) (env : Env) (t m t2 : String) :
    countType t2 (notify cfg st env t m).2 = if t = t2 then 1 else 0 := by
  by_cases h : t = t2
  · subst h
    rw [if_pos rfl]
    unfold notify
    repeat' split
    all_goals simp [countType, List.filter]
  · rw [if_neg h]
    have hb : (t == t2) = false := by simp [h]
    unfold notify
    repeat' split
    all_goals simp [countType, List.filter, hb]

/-- _notify's state change can only be the success-path cooldown update. -/
theorem notify_fst_cases (cfg : Config) (st : State) (env : Env) (t m : String) :
    (notify cfg st env t m).1 = st
    ∨ ((notify cfg st env t m).1
          = { st with cooldowns := (t, env.now) :: st.cooldowns }
        ∧ in_cooldown cfg st env t = false
        ∧ maintenance_active cfg env = false
        ∧ cfg.webhook_url ≠ ""
        ∧ ∃ code body, env.sendResult = .http code body ∧ code < 400) := by
  by_cases h1 : in_cooldown cfg st env t = true
  · rw [notify_in_cooldown cfg st env t m h1]; left; rfl
  · have h1f : in_cooldown cfg st env t = false := by
      cases hb : in_cooldown cfg st env t
      · rfl
      · exact absurd hb h1
    by_cases h2 : maintenance_active cfg env = true
    · rw [notify_maintenance cfg st env t m h1f h2]; left; rfl
    · have h2f : maintenance_active cfg env = false := by
        cases hb : maintenance_active cfg env
        · rfl
        · exact absurd hb h2
      by_cases h3 : cfg.webhook_url = ""
      · rw [notify_no_url cfg st env t m h1f h2f h3]; left; rfl
      · cases h4 : env.sendResult with
        | http code body =>
          by_cases h5 : 400 ≤ code
          · rw [notify_http_fail cfg st env t m code body h1f h2f h3 h4 h5]
            left; rfl
          · rw [notify_success cfg st env t m code body h1f h2f h3 h4 (by omega)]
            right
            exact ⟨rfl, h1f, h2f, h3, code, body, h4 ▸ rfl, by omega⟩
        | transportError msg =>
          rw [notify_transport cfg st env t m msg h1f h2f h3 h4]
          left; rfl

/-- Whether `(v or "").strip()` succeeds: `v` is a string or falsy (a
truthy non-string raises `AttributeError` on `.strip`). -/
def poolOk : Json → Bool
  | .str _ => true
  | v => !pyTruthy v

/-- The value `(v or "").strip().lower()` computes when it succeeds. -/
def poolNormVal : Json → String
  | .str s => pyLower (pyStrip s)
  | _ => ""

/-- The normalised pool name of a dict entry. -/
def poolNorm (fields : List (String × Json)) : String :=
  poolNormVal (dictGet fields "pool")

/-- The release string of a dict entry: `entry.get("release") or "unknown"`
as rendered into the alert message. -/
def releaseOf (fields : List (String × Json)) : String :=
  if pyTruthy (dictGet fields "release") then pyStr (dictGet fields "release")
  else "unknown"

theorem poolOf_eq (v : Json) (h : poolOk v = true) :
    poolOf v = .ok (poolNormVal v) := by
  cases v with
  | str s =>
    unfold poolOf poolNormVal
    by_cases hs : pyTruthy (.str s) = true
    · rw [if_pos hs]
    · have : s = "" := by
        simp [pyTruthy] at hs
        exact hs
      subst this
      rw [if_neg hs]
      rfl
  | null => rfl
  | bool b =>
    cases b
    · rfl
    · simp [poolOk, pyTruthy] at h
  | num n =>
    unfold poolOf poolNormVal
    have : pyTruthy (.num n) = false := by
      simp [poolOk] at h
      exact h
    rw [if_neg (by simp [this])]
  | arr elems =>
    unfold poolOf poolNormVal
    have : pyTruthy (.arr elems) = false := by
      simp [poolOk] at h
      exact h
    rw [if_neg (by simp [this])]
  | obj fs =>
    unfold poolOf poolNormVal
    have : pyTruthy (.obj fs) = false := by
      simp [poolOk] at h
      exact h
    rw [if_neg (by simp [this])]

theorem poolOf_fault (v : Json) (h : poolOk v = false) :
    poolOf v = .error .attributeError := by
  cases v with
  | str s => simp [poolOk] at h
  | null => simp [poolOk, pyTruthy] at h
  | bool b =>
    cases b
    · simp [poolOk, pyTruthy] at h
    · rfl
  | num n =>
    unfold poolOf
    have : pyTruthy (.num n) = true := by
      simp [poolOk] at h
      exact h
    rw [if_pos this]
  | arr elems =>
    unfold poolOf
    have : pyTruthy (.arr elems) = true := by
      simp [poolOk] at h
      exact h
    rw [if_pos this]
  | obj fs =>
    unfold poolOf
    have : pyTruthy (.obj fs) = true := by
      simp [poolOk] at h
      exact h
    rw [if_pos this]

/-- Pure description of `_check_failover` on a dict entry whose `pool`
field is a string or falsy; proved equal to `check_failover` in
`check_failover_obj_eq`. -/
def failoverResult (cfg : Config) (st : State) (env : Env)
    (fields : List (String × Json)) : State × List Output :=
  let pool := poolNorm fields
  let release := releaseOf fields
  if pool = "" ∨ pyEqInt (dictGet fields "status") 200 = false then (st, [])
  else if st.current_pool = some pool then (st, [])
  else
    let st1 := { st with current_pool := some pool }
    match st.current_pool with
    | none => (st1, [.diag (initialMsg pool release)])
    | some prev =>
      if cfg.primary_pool ≠ "" ∧ pool = cfg.primary_pool then
        notify cfg st1 env "recovery" (recoveryMsg pool prev release)
      else
        notify cfg st1 env "failover" (failoverMsg prev pool release)

theorem check_failover_obj_eq (cfg : Config) (st : State) (env : Env)
    (fields : List (String × Json)) (h : poolOk (dictGet fields "pool") = true) :
    check_failover cfg st env (.obj fields) = .ok (failoverResult cfg st env fields) := by
  unfold check_failover failoverResult Json.get releaseOf poolNorm
  dsimp only
  rw [poolOf_eq _ h]
  dsimp only
  by_cases h1 : poolNormVal (dictGet fields "pool") = ""
      ∨ pyEqInt (dictGet fields "status") 200 = false
  · rw [if_pos h1, if_pos h1]
  · rw [if_neg h1, if_neg h1]
    by_cases h2 : st.current_pool = some (poolNormVal (dictGet fields "pool"))
    · rw [if_pos h2, if_pos h2]
    · rw [if_neg h2, if_neg h2]
      cases st.current_pool with
      | none => rfl
      | some prev =>
        dsimp only
        by_cases h3 : cfg.primary_pool ≠ ""
            ∧ poolNormVal (dictGet fields "pool") = cfg.primary_pool
        · rw [if_pos h3, if_pos h3]
        · rw [if_neg h3, if_neg h3]

theorem check_failover_fault (cfg : Config) (st : State) (env : Env)
    (fields : List (String × Json)) (h : poolOk (dictGet fields "pool") = false) :
    check_failover cfg st env (.obj fields) = .error .attributeError := by
  unfold check_failover Json.get
  dsimp only
  rw [poolOf_fault _ h]

theorem check_failover_nonobj (cfg : Config) (st : State) (env : Env)
    (v : Json) (h : v.isObj = false) :
    check_failover cfg st env v = .error .attributeError := by
  cases v
  case obj fields => simp [Json.isObj] at h
  all_goals rfl

/-- `_check_failover` never changes the window or the error-alert flag. -/
theorem failoverResult_fst_fields (cfg : Config) (st : State) (env : Env)
    (fields : List (String × Json)) :
    (failoverResult cfg st env fields).1.window = st.window
    ∧ (failoverResult cfg st env fields).1.error_alert_active
        = st.error_alert_active := by
  simp only [failoverResult]
  repeat' split
  all_goals
    first
      | exact ⟨rfl, rfl⟩
      | exact ⟨(notify_fst_fields cfg _ env _ _).1,
               (notify_fst_fields cfg _ env _ _).2.1⟩

/-- `_check_failover` never dispatches an `error_rate` attempt. -/
theorem failoverResult_no_error_rate (cfg : Config) (st : State) (env : Env)
    (fields : List (String × Json)) :
    countType "error_rate" (failoverResult cfg st env fields).2 = 0 := by
  simp only [failoverResult]
  repeat' split
  all_goals
    first
      | rfl
      | (rw [notify_countType]; simp)

theorem countType_append (t : String) (a b : List Output) :
    countType t (a ++ b) = countType t a + countType t b := by
  simp [countType, List.filter_append]

theorem recordResult_not_full (cfg : Config) (st : State) (env : Env)
    (fields : List (String × Json))
    (h : (dequeAppend cfg.window_size st.window (errBit fields)).length
          < cfg.window_size) :
    recordResult cfg st env fields
      = ({ st with window := dequeAppend cfg.window_size st.window (errBit fields) },
         []) := by
  unfold recordResult
  rw [if_pos h]

theorem recordResult_sustained (cfg : Config) (st : State) (env : Env)
    (fields : List (String × Json))
    (hfull : ¬ (dequeAppend cfg.window_size st.window (errBit fields)).length
               < cfg.window_size)
    (hrate : cfg.error_threshold
              ≤ rateOf (dequeAppend cfg.window_size st.window (errBit fields)))
    (hact : st.error_alert_active = true) :
    recordResult cfg st env fields
      = ({ st with window := dequeAppend cfg.window_size st.window (errBit fields) },
         []) := by
  unfold recordResult
  rw [if_neg hfull, if_pos hrate, if_pos hact]

theorem recordResult_cross (cfg : Config) (st : State) (env : Env)
    (fields : List (String × Json))
    (hfull : ¬ (dequeAppend cfg.window_size st.window (errBit fields)).length
               < cfg.window_size)
    (hrate : cfg.error_threshold
              ≤ rateOf (dequeAppend cfg.window_size st.window (errBit fields)))
    (hact : st.error_alert_active = false) :
    recordResult cfg st env fields
      = (let w := dequeAppend cfg.window_size st.window (errBit fields)
         let p := notify cfg { st with window := w } env "error_rate"
                    (rateMessage (rateOf w) w.length)
         ({ p.1 with error_alert_active := true }, p.2)) := by
  unfold recordResult
  rw [if_neg hfull, if_pos hrate, if_neg (by simp [hact])]

theorem recordResult_drop (cfg : Config) (st : State) (env : Env)
    (fields : List (String × Json))
    (hfull : ¬ (dequeAppend cfg.window_size st.window (errBit fields)).length
               < cfg.window_size)
    (hrate : ¬ cfg.error_threshold
               ≤ rateOf (dequeAppend cfg.window_size st.window (errBit fields))) :
    recordResult cfg st env fields
      = ({ st with window := dequeAppend cfg.window_size st.window (errBit fields),
                   error_alert_active := false },
         []) := by
  unfold recordResult
  rw [if_neg hfull, if_neg hrate]

/-- While the error-rate alert is active and the computed rate stays at or
above the threshold at every step, a run of `_record_error` emits no
output whatsoever (in particular no dispatch attempt) and leaves the alert
active. -/
theorem sustained_no_refire (cfg : Config) (hm : 1 ≤ cfg.window_size) :
    ∀ (l : List (Env × List (String × Json))) (st : State),
      st.error_alert_active = true →
      st.window.length = cfg.window_size →
      (∀ w ∈ windowsOf cfg.window_size st.window (l.map (fun p => errBit p.2)),
          cfg.error_threshold ≤ rateOf w) →
      ∃ stF, runErrors cfg st l = .ok (stF, [])
        ∧ stF.error_alert_active = true
        ∧ stF.window.length = cfg.window_size := by
  intro l
  induction l with
  | nil =>
    intro st h1 h2 h3
    exact ⟨st, rfl, h1, h2⟩
  | cons p rest ih =>
    intro st h1 h2 h3
    obtain ⟨env, fields⟩ := p
    have hw : (dequeAppend cfg.window_size st.window (errBit fields)).length
        = cfg.window_size := length_dequeAppend_full _ _ _ hm h2
    have hhead : cfg.error_threshold
        ≤ rateOf (dequeAppend cfg.window_size st.window (errBit fields)) := by
      apply h3
      simp [windowsOf]
    have hstep : record_error cfg st env (.obj fields)
        = .ok ({ st with
                  window := dequeAppend cfg.window_size st.window (errBit fields) },
               []) := by
      rw [record_error_obj_eq cfg st env fields hm]
      rw [recordResult_sustained cfg st env fields (by omega) hhead h1]
    have htail : ∀ w ∈ windowsOf cfg.window_size
        (dequeAppend cfg.window_size st.window (errBit fields))
        (rest.map (fun p => errBit p.2)),
        cfg.error_threshold ≤ rateOf w := by
      intro w hwmem
      apply h3
      simp only [List.map_cons, windowsOf]
      exact List.mem_cons_of_mem _ hwmem
    obtain ⟨stF, hrun, hact, hlen⟩ := ih
      { st with window := dequeAppend cfg.window_size st.window (errBit fields) }
      h1 hw htail
    refine ⟨stF, ?_, hact, hlen⟩
    unfold runErrors
    rw [hstep]
    dsimp only
    rw [hrun]
    simp

theorem recordResult_window (cfg : Config) (st : State) (env : Env)
    (fields : List (String × Json)) :
    (recordResult cfg st env fields).1.window
      = dequeAppend cfg.window_size st.window (errBit fields) := by
  simp only [recordResult]
  repeat' split
  all_goals
    first
      | rfl
      | exact (notify_fst_fields cfg _ env _ _).1

theorem recordResult_pool (cfg : Config) (st : State) (env : Env)
    (fields : List (String × Json)) :
    (recordResult cfg st env fields).1.current_pool = st.current_pool := by
  simp only [recordResult]
  repeat' split
  all_goals
    first
      | rfl
      | exact (notify_fst_fields cfg _ env _ _).2.2

theorem record_error_nonobj (cfg : Config) (st : State) (env : Env)
    (v : Json) (h : v.isObj = false) :
    record_error cfg st env v = .error .attributeError := by
  unfold record_error
  rw [is_error_nonobj v h]

theorem failoverResult_pool_cases (cfg : Config) (st : State) (env : Env)
    (fields : List (String × Json)) :
    (failoverResult cfg st env fields).1.current_pool = st.current_pool
    ∨ ((failoverResult cfg st env fields).1.current_pool = some (poolNorm fields)
        ∧ pyEqInt (dictGet fields "status") 200 = true
        ∧ poolNorm fields ≠ "") := by
  simp only [failoverResult]
  by_cases h1 : poolNorm fields = "" ∨ pyEqInt (dictGet fields "status") 200 = false
  · rw [if_pos h1]; exact Or.inl rfl
  · rw [if_neg h1]
    have hp : poolNorm fields ≠ "" := fun h => h1 (Or.inl h)
    have h200 : pyEqInt (dictGet fields "status") 200 = true := by
      cases hb : pyEqInt (dictGet fields "status") 200
      · exact absurd (Or.inr hb) h1
      · rfl
    by_cases h2 : st.current_pool = some (poolNorm fields)
    · rw [if_pos h2]; exact Or.inl rfl
    · rw [if_neg h2]
      right
      refine ⟨?_, h200, hp⟩
      cases hcp : st.current_pool with
      | none => rfl
      | some prev =>
        dsimp only
        split
        · exact (notify_fst_fields cfg _ env _ _).2.2
        · exact (notify_fst_fields cfg _ env _ _).2.2

/-! ## The claims -/

/-- Claim C1: the spec says processing a line through the detection
pipeline never raises a fault, with a defined default outcome for any JSON
value the line may decode to, including non-object values.  The code
violates this: `process_line` only filters *falsy* decode results
(`if not entry`, app.py:40), so a line decoding to a truthy non-object
value reaches `entry.get("upstream_status")` inside `_is_error`
(app.py:113) and raises `AttributeError` out of the pipeline.  This
theorem evaluates the pipeline at four such lines (`5`, `[1]`, `"x"`,
`true`). -/
theorem c1_nonobject_line_faults :
    process_parsed cfg0 st0 env0 (some (.num 5)) = .error .attributeError
    ∧ process_parsed cfg0 st0 env0 (some (.arr [.num 1])) = .error .attributeError
    ∧ process_parsed cfg0 st0 env0 (some (.str "x")) = .error .attributeError
    ∧ process_parsed cfg0 st0 env0 (some (.bool true)) = .error .attributeError :=
  ⟨rfl, rfl, rfl, rfl⟩

/-- Claim C2, counterexample: a line decoding to the empty JSON object is
falsy in Python, so the `if not entry` guard (app.py:40) skips it
entirely: the state (in particular the rolling window, here empty) is
unchanged and no observation is appended, contradicting the claim's
"including the empty object" clause. -/
theorem c2_counterexample :
    process_parsed cfg0 st0 env0 (some (.obj [])) = .ok (st0, [])
    ∧ st0.window = [] :=
  ⟨rfl, rfl⟩

/-- Claim C2 (amended): for every line that decodes to a *non-empty* JSON
object, exactly one observation — 1 if the entry classifies as error,
else 0 — is appended to the rolling window, evicting the oldest
observation when the window is at capacity; a line decoding to the empty
object is dropped by the falsy-entry guard and appends nothing. -/
theorem c2_window_append :
    ∀ (cfg : Config) (st : State) (env : Env) (fields : List (String × Json))
      (st2 : State) (outs : List Output),
      fields ≠ [] →
      process_parsed cfg st env (some (.obj fields)) = .ok (st2, outs) →
      st2.window = dequeAppend cfg.window_size st.window (errBit fields)
      ∧ (st.window.length = cfg.window_size → 1 ≤ cfg.window_size →
          st2.window = st.window.drop 1 ++ [errBit fields]) := by
  intro cfg st env fields st2 outs hne hok
  have ht : pyTruthy (.obj fields) = true := by
    cases fields with
    | nil => exact absurd rfl hne
    | cons a l => rfl
  unfold process_parsed at hok
  dsimp only at hok
  rw [if_pos ht] at hok
  by_cases hm : 1 ≤ cfg.window_size
  · rw [record_error_obj_eq cfg st env fields hm] at hok
    rcases hr : recordResult cfg st env fields with ⟨st1, o1⟩
    rw [hr] at hok
    dsimp only at hok
    cases hcf : check_failover cfg st1 env (.obj fields) with
    | error e => rw [hcf] at hok; cases hok
    | ok p =>
      rcases p with ⟨st2x, o2⟩
      rw [hcf] at hok
      dsimp only at hok
      have hst2 : st2x = st2 := congrArg Prod.fst (Except.ok.inj hok)
      have hwin1 : st1.window
          = dequeAppend cfg.window_size st.window (errBit fields) := by
        have := recordResult_window cfg st env fields
        rw [hr] at this
        exact this
      have hwin2 : st2x.window = st1.window := by
        cases hpo : poolOk (dictGet fields "pool") with
        | true =>
          rw [check_failover_obj_eq cfg st1 env fields hpo] at hcf
          have := failoverResult_fst_fields cfg st1 env fields
          rw [(Except.ok.inj hcf)] at this
          exact this.1
        | false =>
          rw [check_failover_fault cfg st1 env fields hpo] at hcf
          cases hcf
      constructor
      · rw [← hst2, hwin2, hwin1]
      · intro hlen hm2
        rw [← hst2, hwin2, hwin1]
        exact dequeAppend_of_full cfg.window_size st.window (errBit fields) hm2 hlen
  · have hz : cfg.window_size = 0 := by omega
    rw [record_error_zero cfg st env fields hz] at hok
    cases hok

/-- Witness for C2's amended theorem at a concrete input: one entry with
status 503 appended as an error observation to the fresh window. -/
theorem c2_window_append_witness :
    process_parsed cfg0 st0 env0 (some (.obj [("status", .num 503)]))
      = .ok ({ st0 with window := [1] }, [])
    ∧ ({ st0 with window := [1] } : State).window
        = dequeAppend cfg0.window_size st0.window (errBit [("status", .num 503)]) :=
  ⟨rfl,
   (c2_window_append cfg0 st0 env0 [("status", .num 503)]
     { st0 with window := [1] } [] (by simp) rfl).1⟩

/-- Claim C3: status-code resolution.  `_is_error` never faults on a dict
entry and resolves the code exactly as the claim states: tokenise
`upstream_status` (stringify list elements; split a scalar's string form
on commas), use the first token `int()` accepts; if none parses, fall back
to the top-level `status` field; if that is absent (Python `None`) or
non-numeric, classify as non-error; otherwise error iff the resolved code
is at least 500.  In particular `upstream_status = "502, 200"` classifies
as error. -/
theorem c3_status_resolution :
    (∀ fields, is_error (.obj fields) = .ok (classifyStatus fields))
    ∧ (∀ fields,
        classifyStatus fields
          = match first_status (dictGet fields "upstream_status") with
            | some code => decide (500 ≤ code)
            | none =>
              match pyToInt (dictGet fields "status") with
              | some n => decide (500 ≤ n)
              | none => false)
    ∧ (∀ items, first_status (.arr items) = firstParsedTok (items.map pyStr))
    ∧ (∀ s, first_status (.str s) = firstParsedTok (pySplitComma s))
    ∧ first_status (.str "502, 200") = some 502
    ∧ is_error (.obj [("upstream_status", .str "502, 200")]) = .ok true
    ∧ is_error (.obj [("upstream_status", .str "502, 200"), ("status", .num 200)])
        = .ok true
    ∧ is_error (.obj [("status", .str "abc")]) = .ok false
    ∧ is_error (.obj []) = .ok false :=
  ⟨is_error_obj, fun _ => rfl, fun _ => rfl, fun _ => rfl,
   by decide, rfl, rfl, rfl, rfl⟩

/-- Claim C9: with a positive window size the error-rate division never
divides by zero (the rate is only computed once the window has filled, and
a just-appended window is then non-empty), so `_record_error` always
returns normally on a dict entry; with `window_size = 0` the
length-versus-capacity guard fails on the very first entry and the
division is reached with an empty window (`ZeroDivisionError`). -/
theorem c9_no_division_by_zero :
    ∀ (cfg : Config) (st : State) (env : Env) (fields : List (String × Json)),
      (1 ≤ cfg.window_size →
        ∃ p, record_error cfg st env (.obj fields) = .ok p)
      ∧ (cfg.window_size = 0 →
        record_error cfg st env (.obj fields) = .error .zeroDivisionError) :=
  fun cfg st env fields =>
    ⟨fun hm => ⟨recordResult cfg st env fields,
                record_error_obj_eq cfg st env fields hm⟩,
     fun hz => record_error_zero cfg st env fields hz⟩

/-- Claim C5: the tracked pool is an invariant under every processed
entry except qualifying ones.  Whenever processing a parsed line returns
normally and the tracked pool changed, the line decoded to a JSON object
whose `status` field equals the integer 200 under Python `==` (so the
numeric string `"200"` does not qualify, witnessed by the second
conjunct) and whose `pool` field is non-empty after trimming. -/
theorem c5_pool_invariant :
    (∀ (cfg : Config) (st : State) (env : Env) (p : Option Json)
       (st2 : State) (outs : List Output),
       process_parsed cfg st env p = .ok (st2, outs) →
       st2.current_pool ≠ st.current_pool →
       ∃ fields, p = some (.obj fields)
         ∧ pyEqInt (dictGet fields "status") 200 = true
         ∧ poolNorm fields ≠ "")
    ∧ pyEqInt (.str "200") 200 = false := by
  refine ⟨?_, rfl⟩
  intro cfg st env p st2 outs hok hch
  cases p with
  | none =>
    unfold process_parsed at hok
    dsimp only at hok
    have heq : st = st2 := congrArg Prod.fst (Except.ok.inj hok)
    exact absurd (by rw [← heq]) hch
  | some entry =>
    unfold process_parsed at hok
    dsimp only at hok
    by_cases htr : pyTruthy entry = true
    · rw [if_pos htr] at hok
      cases hobj : entry.isObj with
      | false =>
        rw [record_error_nonobj cfg st env entry hobj] at hok
        cases hok
      | true =>
        obtain ⟨fields, rfl⟩ : ∃ fields, entry = Json.obj fields := by
          cases entry <;> simp [Json.isObj] at hobj
          exact ⟨_, rfl⟩
        by_cases hm : 1 ≤ cfg.window_size
        · rw [record_error_obj_eq cfg st env fields hm] at hok
          rcases hr : recordResult cfg st env fields with ⟨st1, o1⟩
          rw [hr] at hok
          dsimp only at hok
          cases hcf : check_failover cfg st1 env (.obj fields) with
          | error e => rw [hcf] at hok; cases hok
          | ok q =>
            rcases q with ⟨st2x, o2⟩
            rw [hcf] at hok
            dsimp only at hok
            have hst2 : st2x = st2 := congrArg Prod.fst (Except.ok.inj hok)
            have hpool1 : st1.current_pool = st.current_pool := by
              have := recordResult_pool cfg st env fields
              rw [hr] at this
              exact this
            cases hpo : poolOk (dictGet fields "pool") with
            | false =>
              rw [check_failover_fault cfg st1 env fields hpo] at hcf
              cases hcf
            | true =>
              rw [check_failover_obj_eq cfg st1 env fields hpo] at hcf
              have hx : (failoverResult cfg st1 env fields).1 = st2x :=
                congrArg Prod.fst (Except.ok.inj hcf)
              rcases failoverResult_pool_cases cfg st1 env fields with hsame | hq
              · exact absurd (by rw [← hst2, ← hx, hsame, hpool1]) hch
              · exact ⟨fields, rfl, hq.2.1, hq.2.2⟩
        · have hz : cfg.window_size = 0 := by omega
          rw [record_error_zero cfg st env fields hz] at hok
          cases hok
    · rw [if_neg htr] at hok
      have heq : st = st2 := congrArg Prod.fst (Except.ok.inj hok)
      exact absurd (by rw [← heq]) hch

/-- Witness for C5 at a concrete input: a 200/`"green"` entry moves the
tracked pool away from `blue`, and the theorem certifies the entry
qualifies. -/
theorem c5_witness :
    ∃ fields,
      some (Json.obj [("status", Json.num 200), ("pool", Json.str "green")])
        = some (Json.obj fields)
      ∧ pyEqInt (dictGet fields "status") 200 = true
      ∧ poolNorm fields ≠ "" :=
  (c5_pool_invariant).1 cfg0 { st0 with current_pool := some "blue" } env0
    (some (.obj [("status", .num 200), ("pool", .str "green")]))
    { window := [0], error_alert_active := false, current_pool := some "green",
      cooldowns := [("failover", 1000)] }
    [.notifyAttempt "failover" (failoverMsg "blue" "green" "unknown"),
     .webhookCall cfg0.webhook_url
       (":rotating_light: " ++ failoverMsg "blue" "green" "unknown"),
     .diag ("Sent failover alert: " ++ failoverMsg "blue" "green" "unknown")]
    rfl (by simp)

theorem failoverResult_pool_updated (cfg : Config) (st : State) (env : Env)
    (fields : List (String × Json))
    (hpool : poolNorm fields ≠ "")
    (h200 : pyEqInt (dictGet fields "status") 200 = true)
    (hdiff : st.current_pool ≠ some (poolNorm fields)) :
    (failoverResult cfg st env fields).1.current_pool
      = some (poolNorm fields) := by
  simp only [failoverResult]
  rw [if_neg (by
        intro h
        rcases h with h | h
        · exact hpool h
        · rw [h200] at h; cases h),
      if_neg hdiff]
  cases hcp : st.current_pool with
  | none => rfl
  | some prev =>
    dsimp only
    split
    · exact (notify_fst_fields cfg _ env _ _).2.2
    · exact (notify_fst_fields cfg _ env _ _).2.2

/-- Claim C6: a qualifying pool observation that differs from the tracked
pool updates it and produces: only a diagnostic line (no dispatch attempt)
when no pool was tracked yet; exactly one `recovery` attempt when a
primary pool is configured and the new pool equals it; otherwise exactly
one `failover` attempt; with the release string defaulting to `"unknown"`
when the field is absent. -/
theorem c6_pool_transition_events :
    ∀ (cfg : Config) (st : State) (env : Env) (fields : List (String × Json)),
      poolOk (dictGet fields "pool") = true →
      poolNorm fields ≠ "" →
      pyEqInt (dictGet fields "status") 200 = true →
      st.current_pool ≠ some (poolNorm fields) →
      ∃ st2 outs,
        check_failover cfg st env (.obj fields) = .ok (st2, outs)
        ∧ st2.current_pool = some (poolNorm fields)
        ∧ (st.current_pool = none →
            outs = [.diag (initialMsg (poolNorm fields) (releaseOf fields))]
            ∧ countType "failover" outs = 0
            ∧ countType "recovery" outs = 0
            ∧ countType "error_rate" outs = 0)
        ∧ (∀ prev, st.current_pool = some prev →
            ((cfg.primary_pool ≠ "" ∧ poolNorm fields = cfg.primary_pool) →
               countType "recovery" outs = 1 ∧ countType "failover" outs = 0)
            ∧ (¬ (cfg.primary_pool ≠ "" ∧ poolNorm fields = cfg.primary_pool) →
               countType "failover" outs = 1 ∧ countType "recovery" outs = 0))
        ∧ (dictGet fields "release" = .null → releaseOf fields = "unknown") := by
  intro cfg st env fields hpo hpool h200 hdiff
  rw [check_failover_obj_eq cfg st env fields hpo]
  refine ⟨(failoverResult cfg st env fields).1,
          (failoverResult cfg st env fields).2, by rw [Prod.mk.eta], ?_, ?_, ?_, ?_⟩
  · exact failoverResult_pool_updated cfg st env fields hpool h200 hdiff
  · intro hnone
    simp only [failoverResult]
    rw [if_neg (by
          intro h
          rcases h with h | h
          · exact hpool h
          · rw [h200] at h; cases h),
        if_neg (by rw [hnone]; intro h; cases h), hnone]
    exact ⟨rfl, rfl, rfl, rfl⟩
  · intro prev hprev
    constructor
    · intro hprim
      simp only [failoverResult]
      rw [if_neg (by
            intro h
            rcases h with h | h
            · exact hpool h
            · rw [h200] at h; cases h),
          if_neg (by rw [hprev]; intro h; exact hdiff (hprev.trans h)), hprev]
      dsimp only
      rw [if_pos hprim]
      constructor
      · rw [notify_countType]; simp
      · rw [notify_countType]; simp
    · intro hprim
      simp only [failoverResult]
      rw [if_neg (by
            intro h
            rcases h with h | h
            · exact hpool h
            · rw [h200] at h; cases h),
          if_neg (by rw [hprev]; intro h; exact hdiff (hprev.trans h)), hprev]
      dsimp only
      rw [if_neg hprim]
      constructor
      · rw [notify_countType]; simp
      · rw [notify_countType]; simp
  · intro hrel
    simp [releaseOf, hrel, pyTruthy]

/-- Witness for C6 at a concrete input: from tracked pool `green` with
primary `blue`, a 200/`"blue"` entry yields exactly one `recovery`
attempt. -/
theorem c6_witness :
    ∃ st2 outs,
      check_failover cfg0 { st0 with current_pool := some "green" } env0
          (.obj [("status", .num 200), ("pool", .str "blue")]) = .ok (st2, outs)
      ∧ st2.current_pool
          = some (poolNorm [("status", Json.num 200), ("pool", Json.str "blue")])
      ∧ countType "recovery" outs = 1 ∧ countType "failover" outs = 0 := by
  obtain ⟨st2, outs, h1, h2, _, h4, _⟩ :=
    c6_pool_transition_events cfg0 { st0 with current_pool := some "green" } env0
      [("status", .num 200), ("pool", .str "blue")]
      rfl (by decide) rfl (by decide)
  obtain ⟨hrec, hfail⟩ := (h4 "green" rfl).1 ⟨by decide, by decide⟩
  exact ⟨st2, outs, h1, h2, hrec, hfail⟩

/-- The shape of a dispatch attempt's outputs: a cooldown-suppressed
attempt is the bare attempt marker; otherwise the attempt either ends at a
suppression/misconfiguration diagnostic or performs the webhook call and
logs its outcome. -/
theorem notify_outputs_shape (cfg : Config) (st : State) (env : Env)
    (t m : String) :
    (in_cooldown cfg st env t = true
      ∧ (notify cfg st env t m).2 = [.notifyAttempt t m])
    ∨ (in_cooldown cfg st env t = false
        ∧ ((∃ d, (notify cfg st env t m).2 = [.notifyAttempt t m, .diag d])
           ∨ (∃ d, (notify cfg st env t m).2
                = [.notifyAttempt t m,
                   .webhookCall cfg.webhook_url (":rotating_light: " ++ m),
                   .diag d]))) := by
  by_cases h1 : in_cooldown cfg st env t = true
  · rw [notify_in_cooldown cfg st env t m h1]
    exact Or.inl ⟨h1, rfl⟩
  · have h1f : in_cooldown cfg st env t = false := by
      cases hb : in_cooldown cfg st env t
      · rfl
      · exact absurd hb h1
    refine Or.inr ⟨h1f, ?_⟩
    by_cases h2 : maintenance_active cfg env = true
    · rw [notify_maintenance cfg st env t m h1f h2]
      exact Or.inl ⟨_, rfl⟩
    · have h2f : maintenance_active cfg env = false := by
        cases hb : maintenance_active cfg env
        · rfl
        · exact absurd hb h2
      by_cases h3 : cfg.webhook_url = ""
      · rw [notify_no_url cfg st env t m h1f h2f h3]
        exact Or.inl ⟨_, rfl⟩
      · cases h4 : env.sendResult with
        | http code body =>
          by_cases h5 : 400 ≤ code
          · rw [notify_http_fail cfg st env t m code body h1f h2f h3 h4 h5]
            exact Or.inr ⟨_, rfl⟩
          · rw [notify_success cfg st env t m code body h1f h2f h3 h4 (by omega)]
            exact Or.inr ⟨_, rfl⟩
        | transportError msg =>
          rw [notify_transport cfg st env t m msg h1f h2f h3 h4]
          exact Or.inr ⟨_, rfl⟩

/-- The sample configuration with a maintenance flag configured, and an
environment in which that flag file exists. -/
def cfgM : Config := { cfg0 with maintenance_flag := "/etc/maintenance" }

/-- Environment in which the maintenance flag file exists. -/
def envM : Env := { env0 with maintenanceExists := true }

/-- Claim C7, counterexample: a dispatch attempt made with no cooldown
history but with maintenance mode active is suppressed with no external
call, yet the cooldown condition is false — so "suppressed with no
external call iff within cooldown" fails as stated (the iff's forward
direction breaks on maintenance suppression, which C8 itself relies on). -/
theorem c7_counterexample :
    (notify cfgM st0 envM "failover" "msg").2.filter isCall = []
    ∧ in_cooldown cfgM st0 envM "failover" = false :=
  ⟨rfl, rfl⟩

/-- Claim C7 (amended): a dispatch attempt is suppressed *silently* — no
external call and no diagnostic line — iff the last successful dispatch of
the same alert type was less than `cooldown_seconds` ago; and the
last-dispatch timestamp is updated only on a successful send (HTTP status
below 400): an HTTP error response or a transport error leaves the state
(timestamp included) unchanged, while a successful send records the
current time for exactly that alert type. -/
theorem c7_cooldown_gate :
    ∀ (cfg : Config) (st : State) (env : Env) (t m : String),
      (((notify cfg st env t m).2.filter isCall = []
         ∧ (notify cfg st env t m).2.filter isDiag = [])
        ↔ in_cooldown cfg st env t = true)
      ∧ (in_cooldown cfg st env t = true ↔
          ∃ last, cdLookup st.cooldowns t = some last
            ∧ env.now - last < cfg.cooldown_seconds)
      ∧ ((notify cfg st env t m).1 ≠ st →
           in_cooldown cfg st env t = false
           ∧ maintenance_active cfg env = false
           ∧ cfg.webhook_url ≠ ""
           ∧ (∃ code body, env.sendResult = .http code body ∧ code < 400)
           ∧ (notify cfg st env t m).1
               = { st with cooldowns := (t, env.now) :: st.cooldowns })
      ∧ (∀ code body, env.sendResult = .http code body → 400 ≤ code →
           (notify cfg st env t m).1 = st)
      ∧ (∀ msg2, env.sendResult = .transportError msg2 →
           (notify cfg st env t m).1 = st)
      ∧ (in_cooldown cfg st env t = false → maintenance_active cfg env = false →
         cfg.webhook_url ≠ "" →
         ∀ code body, env.sendResult = .http code body → code < 400 →
           (notify cfg st env t m).1
             = { st with cooldowns := (t, env.now) :: st.cooldowns }) := by
  intro cfg st env t m
  refine ⟨?_, ?_, ?_, ?_, ?_, ?_⟩
  · constructor
    · intro ⟨hc, hd⟩
      rcases notify_outputs_shape cfg st env t m with ⟨h1, _⟩ | ⟨h1f, hsh⟩
      · exact h1
      · exfalso
        rcases hsh with ⟨d, hout⟩ | ⟨d, hout⟩
        · rw [hout] at hd
          simp [isDiag, List.filter] at hd
        · rw [hout] at hc
          simp [isCall, List.filter] at hc
    · intro h1
      rw [notify_in_cooldown cfg st env t m h1]
      exact ⟨rfl, rfl⟩
  · unfold in_cooldown
    cases hl : cdLookup st.cooldowns t with
    | none => simp
    | some last => simp [hl]
  · intro hne
    rcases notify_fst_cases cfg st env t m with h | ⟨hupd, h1f, h2f, h3, code, body, h4, h5⟩
    · exact absurd h hne
    · exact ⟨h1f, h2f, h3, ⟨code, body, h4, h5⟩, hupd⟩
  · intro code body h4 h5
    rcases notify_fst_cases cfg st env t m with h | ⟨_, _, _, _, code2, body2, h42, h52⟩
    · exact h
    · rw [h4] at h42
      cases h42
      omega
  · intro msg2 h4
    rcases notify_fst_cases cfg st env t m with h | ⟨_, _, _, _, code2, body2, h42, _⟩
    · exact h
    · rw [h4] at h42
      cases h42
  · intro h1f h2f h3 code body h4 h5
    rw [notify_success cfg st env t m code body h1f h2f h3 h4 h5]

/-- An environment whose webhook answers HTTP 500. -/
def envFail : Env := { env0 with sendResult := .http 500 "err" }

/-- Witness for C7's amended theorem at concrete inputs: with a prior
`failover` dispatch 100 s ago and a 300 s cooldown the attempt is silent;
and a failed HTTP 500 send leaves the state unchanged. -/
theorem c7_witness :
    ((notify cfg0 { st0 with cooldowns := [("failover", 900)] } env0
        "failover" "m").2.filter isCall = []
      ∧ (notify cfg0 { st0 with cooldowns := [("failover", 900)] } env0
          "failover" "m").2.filter isDiag = [])
    ∧ (notify cfg0 st0 envFail "failover" "m").1 = st0 :=
  ⟨(c7_cooldown_gate cfg0 { st0 with cooldowns := [("failover", 900)] } env0
      "failover" "m").1.mpr (by with_unfolding_all decide),
   (c7_cooldown_gate cfg0 st0 envFail "failover" "m").2.2.2.1 500 "err" rfl
     (by decide)⟩

/-- Claim C8: while a maintenance-flag path is configured and the path
exists during the attempt, no outbound webhook call happens; when the
maintenance check (which runs after the cooldown check) is the one that
suppresses, a diagnostic naming the alert type and message is the only
further output; and the check is a function of the flag configuration and
the file's existence at the current attempt alone — nothing is cached
from earlier attempts (in the embedding, `maintenance_active` reads only
the per-attempt environment). -/
theorem c8_maintenance_suppression :
    ∀ (cfg : Config) (st : State) (env : Env) (t m : String),
      cfg.maintenance_flag ≠ "" → env.maintenanceExists = true →
      (notify cfg st env t m).2.filter isCall = []
      ∧ (in_cooldown cfg st env t = false →
          (notify cfg st env t m).2
            = [.notifyAttempt t m,
               .diag ("Maintenance mode active; suppressing " ++ t
                       ++ " alert: " ++ m)])
      ∧ (∀ env2 : Env, env2.maintenanceExists = env.maintenanceExists →
           maintenance_active cfg env2 = maintenance_active cfg env) := by
  intro cfg st env t m hflag hex
  have hma : maintenance_active cfg env = true := by
    simp [maintenance_active, hflag, hex]
  refine ⟨?_, ?_, ?_⟩
  · by_cases h1 : in_cooldown cfg st env t = true
    · rw [notify_in_cooldown cfg st env t m h1]
      rfl
    · have h1f : in_cooldown cfg st env t = false := by
        cases hb : in_cooldown cfg st env t
        · rfl
        · exact absurd hb h1
      rw [notify_maintenance cfg st env t m h1f hma]
      rfl
  · intro h1f
    rw [notify_maintenance cfg st env t m h1f hma]
  · intro env2 hsame
    simp [maintenance_active, hsame]

/-- Witness for C8 at concrete inputs: with the maintenance file present,
a `failover` attempt performs no webhook call and logs the suppression
line. -/
theorem c8_witness :
    (notify cfgM st0 envM "failover" "m").2.filter isCall = []
    ∧ (notify cfgM st0 envM "failover" "m").2
        = [.notifyAttempt "failover" "m",
           .diag ("Maintenance mode active; suppressing failover alert: m")] := by
  obtain ⟨hc, hd, _⟩ :=
    c8_maintenance_suppression cfgM st0 envM "failover" "m" (by decide) rfl
  exact ⟨hc, hd rfl⟩

/-- The sample configuration with a zero-capacity window. -/
def cfgZ : Config := { cfg0 with window_size := 0 }

/-- Witness for C9 at concrete inputs: a 503 entry under `cfg0`
(window size 3) succeeds, and under a zero window size it raises
`ZeroDivisionError`. -/
theorem c9_witness :
    (∃ p, record_error cfg0 st0 env0 (.obj [("status", .num 503)]) = .ok p)
    ∧ record_error cfgZ st0 env0 (.obj [("status", .num 503)])
        = .error .zeroDivisionError :=
  ⟨(c9_no_division_by_zero cfg0 st0 env0 [("status", .num 503)]).1 (by decide),
   (c9_no_division_by_zero cfgZ st0 env0 [("status", .num 503)]).2 rfl⟩

/-- A threshold crossing from the inactive state: exactly one
`error_rate` dispatch attempt, and the flag becomes active. -/
theorem record_error_cross_step (cfg : Config) (st : State) (env : Env)
    (fields : List (String × Json)) (hm : 1 ≤ cfg.window_size)
    (hfull : (dequeAppend cfg.window_size st.window (errBit fields)).length
              = cfg.window_size)
    (hrate : cfg.error_threshold
              ≤ rateOf (dequeAppend cfg.window_size st.window (errBit fields)))
    (hact : st.error_alert_active = false) :
    ∃ st2 outs, record_error cfg st env (.obj fields) = .ok (st2, outs)
      ∧ countType "error_rate" outs = 1
      ∧ st2.error_alert_active = true := by
  rw [record_error_obj_eq cfg st env fields hm,
      recordResult_cross cfg st env fields (by omega) hrate hact]
  dsimp only
  refine ⟨_, _, rfl, ?_, rfl⟩
  rw [notify_countType]
  simp

/-- Claim C4: the error-rate alert is edge-triggered.  Conjuncts, all
about `_record_error` (the only dispatcher of `error_rate` events):
(1) a call whose post-append window is full, whose rate meets the
threshold, and with the alert inactive, emits exactly one `error_rate`
dispatch attempt and activates the alert; (2) a full-window call whose
rate is below the threshold clears the active flag and emits nothing;
(3) a run of calls that all stay at or above the threshold with the alert
already active emits nothing at all and leaves the alert active; (4) after
a below-threshold call, a subsequent threshold-reaching call emits exactly
one new `error_rate` attempt (deactivate-then-reactivate). -/
theorem c4_edge_triggered :
    (∀ (cfg : Config) (st : State) (env : Env) (fields : List (String × Json)),
       1 ≤ cfg.window_size →
       (dequeAppend cfg.window_size st.window (errBit fields)).length
         = cfg.window_size →
       cfg.error_threshold
         ≤ rateOf (dequeAppend cfg.window_size st.window (errBit fields)) →
       st.error_alert_active = false →
       ∃ st2 outs, record_error cfg st env (.obj fields) = .ok (st2, outs)
         ∧ countType "error_rate" outs = 1
         ∧ st2.error_alert_active = true)
    ∧ (∀ (cfg : Config) (st : State) (env : Env) (fields : List (String × Json)),
       1 ≤ cfg.window_size →
       (dequeAppend cfg.window_size st.window (errBit fields)).length
         = cfg.window_size →
       rateOf (dequeAppend cfg.window_size st.window (errBit fields))
         < cfg.error_threshold →
       record_error cfg st env (.obj fields)
         = .ok ({ st with
                   window := dequeAppend cfg.window_size st.window (errBit fields),
                   error_alert_active := false }, []))
    ∧ (∀ (cfg : Config) (l : List (Env × List (String × Json))) (st : State),
       1 ≤ cfg.window_size →
       st.error_alert_active = true →
       st.window.length = cfg.window_size →
       (∀ w ∈ windowsOf cfg.window_size st.window (l.map (fun p => errBit p.2)),
           cfg.error_threshold ≤ rateOf w) →
       ∃ stF, runErrors cfg st l = .ok (stF, [])
         ∧ stF.error_alert_active = true)
    ∧ (∀ (cfg : Config) (st : State) (env1 env2 : Env)
         (f1 f2 : List (String × Json)),
       1 ≤ cfg.window_size →
       (dequeAppend cfg.window_size st.window (errBit f1)).length
         = cfg.window_size →
       rateOf (dequeAppend cfg.window_size st.window (errBit f1))
         < cfg.error_threshold →
       cfg.error_threshold
         ≤ rateOf (dequeAppend cfg.window_size
             (dequeAppend cfg.window_size st.window (errBit f1)) (errBit f2)) →
       ∃ st1 st2 outs2,
         record_error cfg st env1 (.obj f1) = .ok (st1, [])
         ∧ record_error cfg st1 env2 (.obj f2) = .ok (st2, outs2)
         ∧ countType "error_rate" outs2 = 1
         ∧ st2.error_alert_active = true) := by
  refine ⟨?_, ?_, ?_, ?_⟩
  · intro cfg st env fields hm hfull hrate hact
    exact record_error_cross_step cfg st env fields hm hfull hrate hact
  · intro cfg st env fields hm hfull hrate
    rw [record_error_obj_eq cfg st env fields hm,
        recordResult_drop cfg st env fields (by omega) (not_le.mpr hrate)]
  · intro cfg l st hm hact hlen hrates
    obtain ⟨stF, h1, h2, _⟩ := sustained_no_refire cfg hm l st hact hlen hrates
    exact ⟨stF, h1, h2⟩
  · intro cfg st env1 env2 f1 f2 hm hfull1 hdrop hcross
    have hs1 : record_error cfg st env1 (.obj f1)
        = .ok ({ st with
                  window := dequeAppend cfg.window_size st.window (errBit f1),
                  error_alert_active := false }, []) := by
      rw [record_error_obj_eq cfg st env1 f1 hm,
          recordResult_drop cfg st env1 f1 (by omega) (not_le.mpr hdrop)]
    obtain ⟨st2, outs2, h2a, h2b, h2c⟩ :=
      record_error_cross_step cfg
        { st with window := dequeAppend cfg.window_size st.window (errBit f1),
                  error_alert_active := false } env2 f2 hm
        (length_dequeAppend_full _ _ _ hm hfull1) hcross rfl
    exact ⟨_, st2, outs2, hs1, h2a, h2b, h2c⟩

/-- The sample configuration with a one-entry window. -/
def cfg1 : Config := { cfg0 with window_size := 1 }

/-- Witness for C4 at a concrete input: under a window of size 1 and a 50%
threshold, a single 503 entry crosses the threshold from the inactive
state and emits exactly one `error_rate` attempt. -/
theorem c4_witness :
    ∃ st2 outs,
      record_error cfg1 st0 env0 (.obj [("status", .num 503)]) = .ok (st2, outs)
      ∧ countType "error_rate" outs = 1
      ∧ st2.error_alert_active = true :=
  (c4_edge_triggered).1 cfg1 st0 env0 [("status", .num 503)]
    (by decide) (by decide) (by with_unfolding_all decide) rfl

/-- The sample configuration with a one-entry window and a maintenance
flag configured, and an environment where the flag file exists and the
webhook transport fails. -/
def cfgT : Config := { cfg0 with window_size := 1, maintenance_flag := "/down" }

/-- Environment with maintenance active and a transport-level send
failure. -/
def envT : Env :=
  { env0 with maintenanceExists := true,
              sendResult := .transportError "connection refused" }

/-- Claim C10: when the rate crosses the threshold, the active flag is set
regardless of the dispatch attempt's fate — the environment (clock,
maintenance-file existence, webhook outcome) and the cooldown state are
universally quantified in conjunct (1), so activation holds whether the
attempt is suppressed by cooldown or maintenance, fails with an HTTP
error, or fails at transport level.  Consequently (2) while the rate stays
at or above the threshold no further output — in particular no
`error_rate` dispatch attempt — is produced by the error recorder, and
(3) the failover detector never dispatches `error_rate` attempts, so none
arise elsewhere in the pipeline. -/
theorem c10_activation_unconditional :
    (∀ (cfg : Config) (st : State) (env : Env) (fields : List (String × Json)),
       1 ≤ cfg.window_size →
       (dequeAppend cfg.window_size st.window (errBit fields)).length
         = cfg.window_size →
       cfg.error_threshold
         ≤ rateOf (dequeAppend cfg.window_size st.window (errBit fields)) →
       st.error_alert_active = false →
       ∃ st2 outs, record_error cfg st env (.obj fields) = .ok (st2, outs)
         ∧ st2.error_alert_active = true)
    ∧ (∀ (cfg : Config) (l : List (Env × List (String × Json))) (st : State),
       1 ≤ cfg.window_size →
       st.error_alert_active = true →
       st.window.length = cfg.window_size →
       (∀ w ∈ windowsOf cfg.window_size st.window (l.map (fun p => errBit p.2)),
           cfg.error_threshold ≤ rateOf w) →
       ∃ stF outs, runErrors cfg st l = .ok (stF, outs)
         ∧ countType "error_rate" outs = 0)
    ∧ (∀ (cfg : Config) (st : State) (env : Env) (fields : List (String × Json))
         (st2 : State) (outs : List Output),
       check_failover cfg st env (.obj fields) = .ok (st2, outs) →
       countType "error_rate" outs = 0) := by
  refine ⟨?_, ?_, ?_⟩
  · intro cfg st env fields hm hfull hrate hact
    rw [record_error_obj_eq cfg st env fields hm,
        recordResult_cross cfg st env fields (by omega) hrate hact]
    dsimp only
    exact ⟨_, _, rfl, rfl⟩
  · intro cfg l st hm hact hlen hrates
    obtain ⟨stF, h1, _, _⟩ := sustained_no_refire cfg hm l st hact hlen hrates
    exact ⟨stF, [], h1, rfl⟩
  · intro cfg st env fields st2 outs hok
    cases hpo : poolOk (dictGet fields "pool") with
    | false =>
      rw [check_failover_fault cfg st env fields hpo] at hok
      cases hok
    | true =>
      rw [check_failover_obj_eq cfg st env fields hpo] at hok
      have houts : (failoverResult cfg st env fields).2 = outs :=
        congrArg Prod.snd (Except.ok.inj hok)
      rw [← houts]
      exact failoverResult_no_error_rate cfg st env fields

/-- Witness for C10 at a concrete input: with maintenance mode active and
the webhook failing at transport level, the crossing entry still sets the
active flag. -/
theorem c10_witness :
    ∃ st2 outs,
      record_error cfgT st0 envT (.obj [("upstream_status", .str "502, 200")])
        = .ok (st2, outs)
      ∧ st2.error_alert_active = true :=
  (c10_activation_unconditional).1 cfgT st0 envT
    [("upstream_status", .str "502, 200")]
    (by decide) (by decide) (by with_unfolding_all decide) rfl

end AW
